import Mathlib

/-!
# Verification of the pizza-app Lambda handler

Shallow embedding of the request handler in `src/unnamed/part_000`
(the current revision of the app; `src/unnamed/part_001` and
`src/hello-world/app.mjs` are earlier revisions of the same handler).

Modelling conventions:
* JavaScript object fields that may be absent are `Option` values
  (`none` = the key is absent / the value is `undefined`).
* JavaScript numbers are modelled as `ℚ`; `Math.PI` is the exact
  rational value of the IEEE-754 binary64 constant `Math.PI`.  The
  arithmetic inside `calculatePrice` is carried out exactly over `ℚ`;
  for every quantity reachable in the claims the result is more than
  10⁻³ away from a 2-decimal rounding boundary while the accumulated
  binary64 rounding error is below 10⁻¹³, so the `toFixed(2)` output
  of the model and of the JavaScript program coincide.
* Thrown JavaScript exceptions are `Except.error` values of type
  `JsError`; a handler run that ends in `Except.error` is a run in
  which an exception escaped the handler uncaught.
* `JSON.parse` / `JSON.stringify` are abstracted: a request body is
  either absent, a string that is not valid JSON (parsing throws
  `SyntaxError`), or a JSON text that parses to a pizza-shaped object;
  response bodies are kept as structured values instead of strings.
-/

/-- Exceptions thrown by the JavaScript code paths we model. -/
inductive JsError where
  | typeError
  | syntaxError
deriving DecidableEq

deriving instance DecidableEq for Except

/-- `toppings` object of a request body.  The handler reads both a
`meat` key (in `calculatePrice`, line 299) and a `meats` key (in
`calculateCalories`, line 327), so both are part of the model.
`none` = the key is absent. -/
structure Toppings where
  meat : Option (List String)
  meats : Option (List String)
  vegetables : Option (List String)
deriving DecidableEq

/-- `payment` object of a `POST /order` body.  `extraKeys` counts keys
other than the three named ones, so that `Object.keys(payment).length`
is representable. -/
structure Payment where
  token : Option String
  amount : Option ℚ
  currency : Option String
  extraKeys : Nat
deriving DecidableEq

/-- A parsed request body (`pizza` in the source).  `extraKeys` counts
keys other than the named ones, so that `Object.keys(pizza).length`
is representable. -/
structure Pizza where
  size : Option String
  crust : Option String
  sauce : Option String
  cheese : Option String
  toppings : Option Toppings
  payment : Option Payment
  extraKeys : Nat
deriving DecidableEq

/-- Number of keys `Object.keys` reports on a `payment` object. -/
def Payment.keyCount (p : Payment) : Nat :=
  (if p.token.isSome then 1 else 0) + (if p.amount.isSome then 1 else 0) +
    (if p.currency.isSome then 1 else 0) + p.extraKeys

/-- Number of keys `Object.keys` reports on a `pizza` object. -/
def Pizza.keyCount (p : Pizza) : Nat :=
  (if p.size.isSome then 1 else 0) + (if p.crust.isSome then 1 else 0) +
    (if p.sauce.isSome then 1 else 0) + (if p.cheese.isSome then 1 else 0) +
    (if p.toppings.isSome then 1 else 0) + (if p.payment.isSome then 1 else 0) +
    p.extraKeys

/-- JavaScript falsiness of an optional string field: `undefined` and
`""` are falsy, every other string is truthy. -/
def strFalsy : Option String → Bool
  | none => true
  | some s => s = ""

/-- JavaScript falsiness of an optional numeric field: `undefined` and
`0` are falsy. -/
def numFalsy : Option ℚ → Bool
  | none => true
  | some q => q = 0

/-- Models the JavaScript idiom `xs?.length || 0` applied to an
optional array field. -/
def optLen (o : Option (List String)) : Nat :=
  (o.map List.length).getD 0

/-- The exact rational value of the IEEE-754 binary64 constant
`Math.PI` (3.141592653589793115997963…). -/
def mathPI : ℚ := 884279719003555 / 281474976710656

/-- `Number.prototype.toFixed(2)` on a non-negative rational: round to
the nearest multiple of 1/100 (ties to the larger candidate) and print
with exactly two fractional digits. -/
def toFixed2Abs (q : ℚ) : String :=
  let n : Nat := (⌊q * 100 + 1 / 2⌋).toNat
  toString (n / 100) ++ "." ++ (if n % 100 < 10 then "0" else "") ++ toString (n % 100)

/-- `Number.prototype.toFixed(2)` (sign handled as in ECMA-262: the
sign is split off before the magnitude is rounded). -/
def toFixed2 (q : ℚ) : String :=
  if q < 0 then "-" ++ toFixed2Abs (-q) else toFixed2Abs q

/-- `sizeRadius` lookup table of `calculatePrice` (lines 291–296);
`none` = the JavaScript lookup yields `undefined`. -/
def sizeRadius : String → Option ℚ
  | "small" => some 5
  | "medium" => some 6
  | "large" => some 7
  | "xlarge" => some 8
  | _ => none

/-- `sizeBaseCalories` lookup table of `calculateCalories`
(lines 318–323). -/
def sizeBaseCalories : String → Option ℚ
  | "small" => some 1200
  | "medium" => some 1600
  | "large" => some 2200
  | "xlarge" => some 2600
  | _ => none

/-- `calculatePrice` (part_000 lines 286–315).  Note the source reads
`pizza.toppings.meat?.length` — the singular `meat` key — so the
`meats` array of the request never contributes to the price; and
`pizza.toppings.meat` throws a `TypeError` when `toppings` is absent,
because the member access on `pizza.toppings` happens before the
optional chaining.  When the size is not in the radius table the
JavaScript arithmetic yields `NaN` and `toFixed` prints `"NaN"`. -/
def calculatePrice (pizza : Pizza) : Except JsError String :=
  match pizza.toppings with
  | none => .error .typeError
  | some t =>
    let pricePerTopping : ℚ := 2
    let numFreeToppings : ℚ := 1
    let toppingsPrice : ℚ :=
      pricePerTopping * ((optLen t.meat : ℚ) + (optLen t.vegetables : ℚ) - numFreeToppings)
    let toppingsPrice : ℚ :=
      if pizza.cheese = some "extra" then toppingsPrice + pricePerTopping else toppingsPrice
    match pizza.size.bind sizeRadius with
    | none => .ok "NaN"
    | some radius => .ok (toFixed2 (mathPI * radius ^ 2 / 11 + toppingsPrice))

/-- `calculateCalories` (part_000 lines 317–334).  Reads the plural
`meats` key; throws `TypeError` when `toppings` is absent; yields
`NaN` (modelled as `none`) when the size is not in the table. -/
def calculateCalories (pizza : Pizza) : Except JsError (Option ℚ) :=
  match pizza.toppings with
  | none => .error .typeError
  | some t =>
    let meatCalories : ℚ := 200
    let vegCalories : ℚ := 25
    let numMeatToppings := optLen t.meats
    let numVegToppings := optLen t.vegetables
    match pizza.size.bind sizeBaseCalories with
    | none => .ok none
    | some base =>
      .ok (some (base + meatCalories * numMeatToppings + vegCalories * numVegToppings))

/-- The order record built in the `POST /order` branch
(part_000 lines 111–116). -/
structure Order where
  orderId : String
  status : String
  paidAmount : ℚ
  items : Pizza
deriving DecidableEq

/-- Response body payloads (the JSON texts the handler stringifies;
the static `/menu` and `/example_order` payloads carry no data the
claims touch and are kept opaque). -/
inductive Body where
  | message (s : String)
  | menu
  | customized (size crust sauce cheese : Option String) (toppings : Option Toppings)
      (price : String) (calories : Option ℚ)
  | orderPlaced (order : Order) (msg : String)
  | orderDetails (msg : String) (order : Option Order)
  | example
deriving DecidableEq

/-- API Gateway response envelope `{statusCode, body}`. -/
structure Response where
  statusCode : Nat
  body : Body
deriving DecidableEq

/-- `validatePizza` (part_000 lines 275–284): returns the 400 response
on failure and `undefined` (here `none`) on success.  Both call sites
(lines 53 and 84) discard this return value. -/
def validatePizza (pizza : Pizza) : Option Response :=
  if pizza.keyCount = 0 || strFalsy pizza.size || strFalsy pizza.sauce || strFalsy pizza.cheese then
    some ⟨400, .message "ERROR_400_BAD_REQUEST: Invalid pizza provided."⟩
  else
    none

/-- `String.prototype.substring(start)` for `0 ≤ start`: the start
index is clamped to the string length, and the suffix from there is
returned — exactly `List.drop` on the character sequence. -/
def jsSubstring (s : String) (start : Nat) : String :=
  ⟨s.data.drop start⟩

/-- The token format check of the `POST /order` branch (part_000
line 93): `payment.token.substring(20).length !== 36`, here phrased
positively (`true` = the token is accepted). -/
def tokenCheck (token : String) : Bool :=
  (jsSubstring token 20).length == 36

/-- The first payment check of the `POST /order` branch (part_000
line 86): `Object.keys(payment).length === 0 || !payment.token ||
!payment.amount || !payment.currency`. -/
def paymentMissingFields (payment : Payment) : Bool :=
  payment.keyCount == 0 || strFalsy payment.token || numFalsy payment.amount ||
    strFalsy payment.currency

/-- The Order Store collaborator: DynamoDB `put` is a single-key
upsert keyed on `orderId`. -/
def ddbPut (store : List Order) (o : Order) : List Order :=
  if store.any (fun x => x.orderId == o.orderId) then
    store.map (fun x => if x.orderId == o.orderId then o else x)
  else
    store ++ [o]

/-- The Order Store collaborator: DynamoDB `get` by exact key match;
`none` = the item is absent. -/
def ddbGet (store : List Order) (orderId : String) : Option Order :=
  store.find? (fun x => x.orderId == orderId)

/-- `String.prototype.split(sep)` for a one-character separator,
on the character sequence of the string: `"/order/x"` splits to
`["", "order", "x"]` and `""` splits to `[""]`. -/
def jsSplitChar (sep : Char) : List Char → List (List Char)
  | [] => [[]]
  | c :: rest =>
    if c = sep then [] :: jsSplitChar sep rest
    else (c :: (jsSplitChar sep rest).headD []) :: (jsSplitChar sep rest).tail

/-- `path.split("/")[2]` (part_000 line 194); on every path that
starts with `"/order/"` the index 2 exists, so the `[]`-default is
unreachable there. -/
def pathOrderId (path : String) : String :=
  ⟨(jsSplitChar '/' path.data).getD 2 []⟩

/-- `String.prototype.startsWith(prefixStr)`. -/
def jsStartsWith (s pre : String) : Bool :=
  pre.data.isPrefixOf s.data

/-- A request body as handed to `JSON.parse`: either a string that is
not valid JSON (parsing throws `SyntaxError`), or a JSON text whose
value is a pizza-shaped object. -/
inductive RawBody where
  | malformed
  | json (pizza : Pizza)
deriving DecidableEq

/-- API Gateway event: method, path and optional body (`none` = the
body is absent or the empty string, both falsy in JavaScript). -/
structure Event where
  httpMethod : String
  path : String
  body : Option RawBody
deriving DecidableEq

/-- `JSON.parse` as used on both POST routes.  On `/customize` the
code runs `JSON.parse(event.body || {})`, so an absent body coerces
the object `{}` to the string `"[object Object]"`, which throws
`SyntaxError`; on `/order` it runs `JSON.parse(event.body)`, so an
absent body parses the string `"undefined"`, which also throws
`SyntaxError`.  Both routes therefore throw on an absent or malformed
body and succeed exactly on a JSON body. -/
def parseBody : Option RawBody → Except JsError Pizza
  | none => .error .syntaxError
  | some .malformed => .error .syntaxError
  | some (.json p) => .ok p

/-- The `POST /order` branch after `JSON.parse` (part_000 lines
80–189).  `freshId` stands for the `crypto.randomUUID()` value and
`putFails` for whether the awaited DynamoDB `put` rejects (the
table-existence bootstrap of lines 132–168 touches only the table
schema, never order items, and is not modelled).  Note line 84 calls
`validatePizza(pizza)` and discards the returned 400 response, and
line 86 throws a `TypeError` when the body has no `payment` key
(`Object.keys(undefined)`). -/
def pizzaOrder (pizza : Pizza) (freshId : String) (store : List Order) (putFails : Bool) :
    Except JsError (Response × List Order) :=
  let _ := validatePizza pizza
  match pizza.payment with
  | none => .error .typeError
  | some payment =>
    if paymentMissingFields payment then
      .ok (⟨400, .message "ERROR_400_BAD_REQUEST: Invalid payment information."⟩, store)
    else if !tokenCheck (payment.token.getD "") then
      .ok (⟨400, .message "ERROR_400_BAD_REQUEST: Invalid payment token."⟩, store)
    else if payment.amount.getD 0 ≤ 0 then
      .ok (⟨400, .message "ERROR_400_BAD_REQUEST: Invalid payment amount."⟩, store)
    else
      let order : Order := ⟨freshId, "confirmed", payment.amount.getD 0, pizza⟩
      if putFails then
        .ok (⟨500, .message "ERROR_500_INTERNAL: Failed to write order."⟩, store)
      else
        .ok (⟨200, .orderPlaced order "Payment processed successfully and order placed."⟩,
          ddbPut store order)

/-- `lambdaHandler` (part_000 lines 18–273).  The result is the pair
of the response envelope and the Order Store after the request; an
`Except.error` is an exception that escaped the handler uncaught.
Note line 53 calls `validatePizza(pizza)` and discards the returned
400 response.  Errors of the `GET /order/` store read are caught by
the source (lines 213–223) and leave `order` undefined, so that read
is modelled as total. -/
def lambdaHandler (ev : Event) (freshId : String) (store : List Order) (putFails : Bool) :
    Except JsError (Response × List Order) :=
  if ev.httpMethod = "GET" ∧ ev.path = "/menu" then
    .ok (⟨200, .menu⟩, store)
  else if ev.httpMethod = "POST" ∧ ev.path = "/customize" then
    match parseBody ev.body with
    | .error e => .error e
    | .ok pizza =>
      let _ := validatePizza pizza
      match calculatePrice pizza with
      | .error e => .error e
      | .ok calculatedPrice =>
        match calculateCalories pizza with
        | .error e => .error e
        | .ok calculatedCalories =>
          .ok (⟨200, .customized pizza.size pizza.crust pizza.sauce pizza.cheese
            pizza.toppings calculatedPrice calculatedCalories⟩, store)
  else if ev.httpMethod = "POST" ∧ ev.path = "/order" then
    match parseBody ev.body with
    | .error e => .error e
    | .ok pizza => pizzaOrder pizza freshId store putFails
  else if ev.httpMethod = "GET" ∧ jsStartsWith ev.path "/order/" then
    .ok (⟨200, .orderDetails "Retrieved Order Details Successfully"
      (ddbGet store (pathOrderId ev.path))⟩, store)
  else if ev.httpMethod = "GET" ∧ ev.path = "/example_order" then
    .ok (⟨200, .example⟩, store)
  else
    .ok (⟨404, .message "ERROR_404_NOT_FOUND"⟩, store)

/-- The price computation as claim C1 words it: `countMeats` and
`countVegetables` are the lengths of `toppings.meats` and
`toppings.vegetables`, defaulting to 0 when absent; defined only for
the four catalog sizes.  This definition follows the claim, not the
source, and is compared against `calculatePrice`. -/
def claimPrice (pizza : Pizza) : Option String :=
  (pizza.size.bind sizeRadius).map fun radius =>
    let countMeats : ℚ := optLen (pizza.toppings.bind Toppings.meats)
    let countVegetables : ℚ := optLen (pizza.toppings.bind Toppings.vegetables)
    let extra : ℚ := if pizza.cheese = some "extra" then 2 else 0
    toFixed2 (mathPI * radius ^ 2 / 11 + 2 * (countMeats + countVegetables - 1) + extra)

/-! ## Helper lemmas -/

/-- Evaluate `toFixed2` on a non-negative rational whose rounded
numerator of hundredths is known. -/
theorem toFixed2_eq_str (q : ℚ) (n : Nat) (s : String) (h0 : 0 ≤ q)
    (h1 : ⌊q * 100 + 1 / 2⌋ = (n : ℤ))
    (h2 : toString (n / 100) ++ "." ++ (if n % 100 < 10 then "0" else "") ++
      toString (n % 100) = s) :
    toFixed2 q = s := by
  rw [toFixed2, if_neg (not_lt.2 h0)]
  simp only [toFixed2Abs, h1, Int.toNat_natCast]
  exact h2

/-- Evaluate `calculatePrice` on a pizza without extra cheese whose
size is in the radius table. -/
theorem calculatePrice_eval (p : Pizza) (t : Toppings) (r : ℚ) (s : String)
    (ht : p.toppings = some t) (hs : p.size = some s) (hr : sizeRadius s = some r)
    (hch : p.cheese ≠ some "extra") :
    calculatePrice p =
      .ok (toFixed2 (mathPI * r ^ 2 / 11 +
        2 * ((optLen t.meat : ℚ) + (optLen t.vegetables : ℚ) - 1))) := by
  simp [calculatePrice, ht, hs, hr, hch]

/-! ## Claims -/

/-- The empty `toppings` object `{}` of claims C8 and C2. -/
def zeroToppings : Toppings := ⟨none, none, none⟩

/-- The pizza `{size: s, sauce: "regular", cheese: "regular",
toppings: {}}` of claim C8. -/
def basicPizza (s : String) : Pizza :=
  ⟨some s, none, some "regular", some "regular", some zeroToppings, none, 0⟩

/-- C8: for each catalog size, the price of a pizza with empty
toppings and regular cheese is `round(π·r²/11 − 2, 2)` rendered with
exactly two fractional digits: `"5.14"`, `"8.28"`, `"11.99"`,
`"16.28"` for radii 5, 6, 7, 8. -/
theorem c8_base_price_zero_toppings :
    (calculatePrice (basicPizza "small") = .ok (toFixed2 (mathPI * 5 ^ 2 / 11 - 2)) ∧
      calculatePrice (basicPizza "small") = .ok "5.14")
    ∧ (calculatePrice (basicPizza "medium") = .ok (toFixed2 (mathPI * 6 ^ 2 / 11 - 2)) ∧
      calculatePrice (basicPizza "medium") = .ok "8.28")
    ∧ (calculatePrice (basicPizza "large") = .ok (toFixed2 (mathPI * 7 ^ 2 / 11 - 2)) ∧
      calculatePrice (basicPizza "large") = .ok "11.99")
    ∧ (calculatePrice (basicPizza "xlarge") = .ok (toFixed2 (mathPI * 8 ^ 2 / 11 - 2)) ∧
      calculatePrice (basicPizza "xlarge") = .ok "16.28") := by
  have h5 : calculatePrice (basicPizza "small") = .ok (toFixed2 (mathPI * 5 ^ 2 / 11 - 2)) := by
    rw [calculatePrice_eval (basicPizza "small") zeroToppings 5 "small" rfl rfl rfl (by decide)]
    congr 2
    simp [optLen, zeroToppings]
    ring
  have h6 : calculatePrice (basicPizza "medium") = .ok (toFixed2 (mathPI * 6 ^ 2 / 11 - 2)) := by
    rw [calculatePrice_eval (basicPizza "medium") zeroToppings 6 "medium" rfl rfl rfl (by decide)]
    congr 2
    simp [optLen, zeroToppings]
    ring
  have h7 : calculatePrice (basicPizza "large") = .ok (toFixed2 (mathPI * 7 ^ 2 / 11 - 2)) := by
    rw [calculatePrice_eval (basicPizza "large") zeroToppings 7 "large" rfl rfl rfl (by decide)]
    congr 2
    simp [optLen, zeroToppings]
    ring
  have h8 : calculatePrice (basicPizza "xlarge") = .ok (toFixed2 (mathPI * 8 ^ 2 / 11 - 2)) := by
    rw [calculatePrice_eval (basicPizza "xlarge") zeroToppings 8 "xlarge" rfl rfl rfl (by decide)]
    congr 2
    simp [optLen, zeroToppings]
    ring
  have s5 : toFixed2 (mathPI * 5 ^ 2 / 11 - 2) = "5.14" :=
    toFixed2_eq_str _ 514 _ (by norm_num [mathPI]) (by norm_num [mathPI]) (by decide)
  have s6 : toFixed2 (mathPI * 6 ^ 2 / 11 - 2) = "8.28" :=
    toFixed2_eq_str _ 828 _ (by norm_num [mathPI]) (by norm_num [mathPI]) (by decide)
  have s7 : toFixed2 (mathPI * 7 ^ 2 / 11 - 2) = "11.99" :=
    toFixed2_eq_str _ 1199 _ (by norm_num [mathPI]) (by norm_num [mathPI]) (by decide)
  have s8 : toFixed2 (mathPI * 8 ^ 2 / 11 - 2) = "16.28" :=
    toFixed2_eq_str _ 1628 _ (by norm_num [mathPI]) (by norm_num [mathPI]) (by decide)
  exact ⟨⟨h5, h5.trans (congrArg Except.ok s5)⟩, ⟨h6, h6.trans (congrArg Except.ok s6)⟩,
    ⟨h7, h7.trans (congrArg Except.ok s7)⟩, ⟨h8, h8.trans (congrArg Except.ok s8)⟩⟩

/-- The pizza of claim C1's failing input: medium, regular cheese,
`toppings.meats = ["pepperoni"]`, no vegetables. -/
def c1pizza : Pizza :=
  ⟨some "medium", none, some "regular", some "regular",
    some ⟨none, some ["pepperoni"], none⟩, none, 0⟩

/-- C1 (code bug): `calculatePrice` reads the singular `toppings.meat`
key (line 299) while the rest of the program — the menu, the example
order and `calculateCalories` — uses the plural `meats`, so a meat
topping listed under `meats` never contributes to the price: the code
returns `"8.28"` on `c1pizza` while the price formula of the claim
(with `countMeats = 1`) yields `"10.28"`. -/
theorem c1_calculatePrice_drops_meats :
    calculatePrice c1pizza = .ok "8.28" ∧ claimPrice c1pizza = some "10.28" ∧
      ("8.28" : String) ≠ "10.28" := by
  have e1 : calculatePrice c1pizza = .ok (toFixed2 (mathPI * 6 ^ 2 / 11 - 2)) := by
    rw [calculatePrice_eval c1pizza ⟨none, some ["pepperoni"], none⟩ 6 "medium" rfl rfl rfl
      (by decide)]
    congr 2
    simp [optLen]
    ring
  have s1 : toFixed2 (mathPI * 6 ^ 2 / 11 - 2) = "8.28" :=
    toFixed2_eq_str _ 828 _ (by norm_num [mathPI]) (by norm_num [mathPI]) (by decide)
  have e2 : claimPrice c1pizza = some (toFixed2 (mathPI * 6 ^ 2 / 11)) := by
    simp only [claimPrice, c1pizza, Option.bind_some, sizeRadius, Option.map_some]
    simp [optLen]
  have s2 : toFixed2 (mathPI * 6 ^ 2 / 11) = "10.28" :=
    toFixed2_eq_str _ 1028 _ (by norm_num [mathPI]) (by norm_num [mathPI]) (by decide)
  exact ⟨e1.trans (congrArg Except.ok s1), e2.trans (congrArg some s2), by decide⟩

/-- The particular pizza of claim C5: medium, one meat topping, two
vegetable toppings. -/
def c5pizza : Pizza :=
  ⟨some "medium", none, some "regular", some "regular",
    some ⟨none, some ["pepperoni"], some ["olives", "mushrooms"]⟩, none, 0⟩

/-- C5: for every pizza whose size is in the calorie table, the
calorie computation returns `base(size) + 200·countMeats +
25·countVegetables` where the counts are the lengths of
`toppings.meats` and `toppings.vegetables` (0 when absent); the table
maps small/medium/large/xlarge to 1200/1600/2200/2600; and the
particular medium pizza with meats `["pepperoni"]` and vegetables
`["olives","mushrooms"]` yields 1850. -/
theorem c5_calories_formula :
    (sizeBaseCalories "small" = some 1200 ∧ sizeBaseCalories "medium" = some 1600 ∧
      sizeBaseCalories "large" = some 2200 ∧ sizeBaseCalories "xlarge" = some 2600)
    ∧ (∀ (p : Pizza) (t : Toppings) (s : String) (base : ℚ),
        p.toppings = some t → p.size = some s → sizeBaseCalories s = some base →
        calculateCalories p =
          .ok (some (base + 200 * (optLen t.meats : ℚ) + 25 * (optLen t.vegetables : ℚ))))
    ∧ calculateCalories c5pizza = .ok (some 1850) := by
  refine ⟨⟨rfl, rfl, rfl, rfl⟩, ?_, ?_⟩
  · intro p t s base ht hs hbase
    simp [calculateCalories, ht, hs, hbase]
  · simp [calculateCalories, c5pizza, sizeBaseCalories, optLen]
    norm_num

/-- Witness for C5: the universally quantified part applied to the
concrete medium pizza. -/
theorem c5_calories_formula_witness :
    calculateCalories c5pizza =
      .ok (some ((1600 : ℚ) + 200 * (optLen (some ["pepperoni"]) : ℚ) +
        25 * (optLen (some ["olives", "mushrooms"]) : ℚ))) :=
  c5_calories_formula.2.1 c5pizza ⟨none, some ["pepperoni"], some ["olives", "mushrooms"]⟩
    "medium" 1600 rfl rfl rfl

/-- C7: the implemented token check (substring from index 20 has
length exactly 36) accepts a token iff its length is exactly 56, and
rejects every token shorter than 21 characters. -/
theorem c7_token_length_iff :
    ∀ t : String, (tokenCheck t = true ↔ t.length = 56) ∧
      (t.length < 21 → tokenCheck t = false) := by
  intro t
  have hlen : (jsSubstring t 20).length = t.length - 20 := by
    show (t.data.drop 20).length = t.data.length - 20
    exact List.length_drop 20 t.data
  constructor
  · rw [tokenCheck, beq_iff_eq, hlen]
    omega
  · intro hshort
    rw [tokenCheck, hlen]
    simp only [beq_eq_false_iff_ne, ne_eq]
    omega

/-- The pizza of claim C2's failing input: the `size` key is present
but empty, so `validatePizza` flags it. -/
def c2pizza : Pizza :=
  ⟨some "", none, some "regular", some "regular", some zeroToppings, none, 0⟩

/-- C2 (code bug): `POST /customize` never returns the 400 response on
an invalid pizza, because line 53 discards the response object that
`validatePizza` returns (the two earlier revisions of the handler
return it inline).  On `c2pizza` — which `validatePizza` itself
rejects — the handler answers 200 with price `"NaN"` and `NaN`
calories. -/
theorem c2_customize_discards_validation :
    validatePizza c2pizza =
      some ⟨400, .message "ERROR_400_BAD_REQUEST: Invalid pizza provided."⟩ ∧
    lambdaHandler ⟨"POST", "/customize", some (.json c2pizza)⟩ "uuid-1" [] false =
      .ok (⟨200, .customized (some "") none (some "regular") (some "regular")
        (some zeroToppings) "NaN" none⟩, []) := by
  constructor
  · decide
  · decide

/-- C3 counterexample: on a malformed JSON body, `POST /customize`
does not produce a response envelope — the `SyntaxError` thrown by
`JSON.parse` (line 49) escapes the handler uncaught. -/
theorem c3_counterexample_malformed_body :
    lambdaHandler ⟨"POST", "/customize", some .malformed⟩ "uuid-1" [] false =
      .error .syntaxError := by
  decide

/-- C3 as amended: an absent or malformed body on `POST /customize` or
`POST /order` makes `JSON.parse` throw, and the exception escapes the
handler uncaught instead of being converted to a 400 envelope. -/
theorem c3_parse_errors_escape :
    ∀ (freshId : String) (store : List Order) (putFails : Bool) (b : Option RawBody)
      (path : String), (b = none ∨ b = some .malformed) →
      (path = "/customize" ∨ path = "/order") →
      lambdaHandler ⟨"POST", path, b⟩ freshId store putFails = .error .syntaxError := by
  intro freshId store putFails b path hb hp
  rcases hb with hb | hb <;> rcases hp with hp | hp <;> subst hb <;> subst hp <;>
    simp [lambdaHandler, parseBody]

/-- Witness for C3: the amended statement at concrete inputs. -/
theorem c3_parse_errors_escape_witness :
    lambdaHandler ⟨"POST", "/order", none⟩ "uuid-1" [] false = .error .syntaxError :=
  c3_parse_errors_escape "uuid-1" [] false none "/order" (Or.inl rfl) (Or.inr rfl)

/-- The 56-character payment token of claim C4's failing input. -/
def c4token : String := "pizza_payment_token_123456789012345678901234567890123456"

/-- The payment of claim C4's failing input: all fields present, token
of length 56, positive amount. -/
def c4payment : Payment := ⟨some c4token, some 10, some "USD", 0⟩

/-- The pizza of claim C4's failing input: a body whose only key is a
fully valid `payment` — `validatePizza` rejects it (no size). -/
def c4pizza : Pizza := ⟨none, none, none, none, none, some c4payment, 0⟩

/-- The order record the handler builds and persists for `c4pizza`. -/
def c4order : Order := ⟨"uuid-1", "confirmed", 10, c4pizza⟩

/-- C4 (code bug): a pizza-validation failure does not short-circuit
`POST /order`, because line 84 discards the 400 response object that
`validatePizza` returns.  On `c4pizza` — rejected by `validatePizza`
itself — the handler generates an order id, persists the order (the
store grows from `[]` to `[c4order]`) and answers 200. -/
theorem c4_invalid_pizza_still_persisted :
    validatePizza c4pizza =
      some ⟨400, .message "ERROR_400_BAD_REQUEST: Invalid pizza provided."⟩ ∧
    lambdaHandler ⟨"POST", "/order", some (.json c4pizza)⟩ "uuid-1" [] false =
      .ok (⟨200, .orderPlaced c4order "Payment processed successfully and order placed."⟩,
        [c4order]) := by
  constructor
  · decide
  · decide

/-- C6: the payment validation of `POST /order` runs its three checks
in a fixed order with short-circuiting and a distinct 400 message
each: empty/missing-field payments are reported as invalid payment
information regardless of the token; then a token whose substring
from index 20 does not have length 36 is reported as an invalid
token regardless of the amount; then a non-positive amount is
reported as an invalid amount.  The Order Store is left unchanged in
all three cases. -/
theorem c6_payment_check_order :
    ∀ (p : Pizza) (pay : Payment) (freshId : String) (store : List Order) (putFails : Bool),
      p.payment = some pay →
      (paymentMissingFields pay = true →
        pizzaOrder p freshId store putFails =
          .ok (⟨400, .message "ERROR_400_BAD_REQUEST: Invalid payment information."⟩, store))
      ∧ (paymentMissingFields pay = false → tokenCheck (pay.token.getD "") = false →
        pizzaOrder p freshId store putFails =
          .ok (⟨400, .message "ERROR_400_BAD_REQUEST: Invalid payment token."⟩, store))
      ∧ (paymentMissingFields pay = false → tokenCheck (pay.token.getD "") = true →
        pay.amount.getD 0 ≤ 0 →
        pizzaOrder p freshId store putFails =
          .ok (⟨400, .message "ERROR_400_BAD_REQUEST: Invalid payment amount."⟩, store)) := by
  intro p pay freshId store putFails hp
  refine ⟨?_, ?_, ?_⟩
  · intro h1
    simp [pizzaOrder, hp, h1]
  · intro h1 h2
    simp [pizzaOrder, hp, h1, h2]
  · intro h1 h2 h3
    simp [pizzaOrder, hp, h1, h2, h3]

/-- A payment with a missing `currency` field and a short token: the
first check wins. -/
def c6paymentA : Payment := ⟨some "x", some 5, none, 0⟩

/-- A payment with all fields present, a short token and a negative
amount: the token check wins. -/
def c6paymentB : Payment := ⟨some "abc", some (-5), some "USD", 0⟩

/-- Witness for C6: a payment with missing fields and a bad token is
reported as invalid payment information, and a payment with a bad
token and a non-positive amount is reported as an invalid token. -/
theorem c6_payment_check_order_witness :
    pizzaOrder ⟨none, none, none, none, none, some c6paymentA, 0⟩ "uuid-1" [] false =
      .ok (⟨400, .message "ERROR_400_BAD_REQUEST: Invalid payment information."⟩, []) ∧
    pizzaOrder ⟨none, none, none, none, none, some c6paymentB, 0⟩ "uuid-1" [] false =
      .ok (⟨400, .message "ERROR_400_BAD_REQUEST: Invalid payment token."⟩, []) :=
  ⟨(c6_payment_check_order _ c6paymentA "uuid-1" [] false rfl).1 (by decide),
    (c6_payment_check_order _ c6paymentB "uuid-1" [] false rfl).2.1 (by decide) (by decide)⟩

/-- C10: a pizza that passes validation but has no `toppings` key
makes both engines throw a `TypeError` — `pizza.toppings.meat` and
`pizza.toppings.meats` dereference `undefined` before the optional
chaining applies — so `POST /customize` crashes instead of treating
absent toppings as empty. -/
theorem c10_missing_toppings_throws :
    ∀ (p : Pizza) (freshId : String) (store : List Order) (putFails : Bool),
      validatePizza p = none → p.toppings = none →
      calculatePrice p = .error .typeError ∧ calculateCalories p = .error .typeError ∧
      lambdaHandler ⟨"POST", "/customize", some (.json p)⟩ freshId store putFails =
        .error .typeError := by
  intro p freshId store putFails hv ht
  refine ⟨?_, ?_, ?_⟩
  · simp [calculatePrice, ht]
  · simp [calculateCalories, ht]
  · simp [lambdaHandler, parseBody, calculatePrice, ht]

/-- A valid pizza (size, sauce, cheese present and non-empty) whose
body has no `toppings` key. -/
def c10pizza : Pizza :=
  ⟨some "medium", none, some "regular", some "regular", none, none, 0⟩

/-- Witness for C10: the theorem at the concrete valid pizza without
toppings. -/
theorem c10_missing_toppings_throws_witness :
    validatePizza c10pizza = none ∧
    (calculatePrice c10pizza = .error .typeError ∧
      calculateCalories c10pizza = .error .typeError ∧
      lambdaHandler ⟨"POST", "/customize", some (.json c10pizza)⟩ "uuid-1" [] false =
        .error .typeError) :=
  ⟨by decide, c10_missing_toppings_throws c10pizza "uuid-1" [] false (by decide) rfl⟩

/-- A list is a `isPrefixOf` of itself followed by anything. -/
theorem isPrefixOf_append_self (l m : List Char) : l.isPrefixOf (l ++ m) = true := by
  induction l with
  | nil => simp
  | cons a as ih => simp [List.isPrefixOf, ih]

/-- `jsSplitChar` on a leading separator starts a new empty field. -/
theorem jsSplitChar_cons_sep (sep : Char) (l : List Char) :
    jsSplitChar sep (sep :: l) = [] :: jsSplitChar sep l := by
  simp [jsSplitChar]

/-- `jsSplitChar` on a leading non-separator extends the first field. -/
theorem jsSplitChar_cons_ne (sep c : Char) (l : List Char) (h : ¬ c = sep) :
    jsSplitChar sep (c :: l) =
      (c :: (jsSplitChar sep l).headD []) :: (jsSplitChar sep l).tail := by
  simp [jsSplitChar, h]

/-- `jsSplitChar` on a separator-free list is one field. -/
theorem jsSplitChar_no_sep (sep : Char) (l : List Char) (h : sep ∉ l) :
    jsSplitChar sep l = [l] := by
  induction l with
  | nil => rfl
  | cons a as ih =>
    have ha : ¬ a = sep := fun hc => h (hc ▸ List.mem_cons_self a as)
    have has : sep ∉ as := fun hc => h (List.mem_cons_of_mem a hc)
    rw [jsSplitChar_cons_ne sep a as ha, ih has]
    rfl

/-- Splitting `"/order/" ++ id` at `'/'` for a slash-free `id`. -/
theorem jsSplitChar_order_path (id : String) (h : '/' ∉ id.data) :
    jsSplitChar '/' (("/order/" ++ id).data) =
      [[], ['o', 'r', 'd', 'e', 'r'], id.data] := by
  show jsSplitChar '/' ('/' :: 'o' :: 'r' :: 'd' :: 'e' :: 'r' :: '/' :: id.data) = _
  rw [jsSplitChar_cons_sep, jsSplitChar_cons_ne _ _ _ (by decide),
    jsSplitChar_cons_ne _ _ _ (by decide), jsSplitChar_cons_ne _ _ _ (by decide),
    jsSplitChar_cons_ne _ _ _ (by decide), jsSplitChar_cons_ne _ _ _ (by decide),
    jsSplitChar_cons_sep, jsSplitChar_no_sep _ _ h]
  rfl

/-- `path.split("/")[2]` recovers the id from `"/order/" ++ id`. -/
theorem pathOrderId_order (id : String) (h : '/' ∉ id.data) :
    pathOrderId ("/order/" ++ id) = id := by
  rw [pathOrderId, jsSplitChar_order_path id h]
  rfl

/-- Every `"/order/" ++ id` path starts with `"/order/"`. -/
theorem jsStartsWith_order (id : String) :
    jsStartsWith ("/order/" ++ id) "/order/" = true := by
  rw [jsStartsWith]
  exact isPrefixOf_append_self "/order/".data id.data

/-- No `"/order/" ++ id` path is the menu path. -/
theorem orderPath_ne_menu (id : String) : ("/order/" ++ id) ≠ "/menu" := by
  intro hc
  have h2 : ('/' :: 'o' :: 'r' :: 'd' :: 'e' :: 'r' :: '/' :: id.data).length =
      ("/menu".data).length := congrArg (fun s : String => s.data.length) hc
  simp at h2

/-- Routing: a `GET "/order/" ++ id` request reaches the view-order
branch, which answers 200 with the store lookup of the id and leaves
the store unchanged. -/
theorem lambdaHandler_getOrder (store : List Order) (id freshId : String)
    (putFails : Bool) (hid : '/' ∉ id.data) :
    lambdaHandler ⟨"GET", "/order/" ++ id, none⟩ freshId store putFails =
      .ok (⟨200, .orderDetails "Retrieved Order Details Successfully" (ddbGet store id)⟩,
        store) := by
  simp [lambdaHandler, orderPath_ne_menu id, jsStartsWith_order id, pathOrderId_order id hid]

/-- C9: `GET /order/{id}` on an id that was never stored returns a
200 success envelope whose `order` field is absent (not a 404, not a
thrown error), and on a stored id returns 200 with the unique order
whose `orderId` matches exactly; the store is unchanged either way. -/
theorem c9_getOrder_absent_or_found :
    ∀ (store : List Order) (id freshId : String) (putFails : Bool), '/' ∉ id.data →
      ((∀ o ∈ store, o.orderId ≠ id) →
        lambdaHandler ⟨"GET", "/order/" ++ id, none⟩ freshId store putFails =
          .ok (⟨200, .orderDetails "Retrieved Order Details Successfully" none⟩, store))
      ∧ (∀ o : Order, ddbGet store id = some o → o.orderId = id ∧
        lambdaHandler ⟨"GET", "/order/" ++ id, none⟩ freshId store putFails =
          .ok (⟨200, .orderDetails "Retrieved Order Details Successfully" (some o)⟩,
            store)) := by
  intro store id freshId putFails hid
  constructor
  · intro habs
    have hnone : ddbGet store id = none := by
      rw [ddbGet, List.find?_eq_none]
      intro x hx
      simpa using habs x hx
    rw [lambdaHandler_getOrder store id freshId putFails hid, hnone]
  · intro o ho
    refine ⟨by simpa using List.find?_some ho, ?_⟩
    rw [lambdaHandler_getOrder store id freshId putFails hid, ho]

/-- A stored order used by the C9 witness. -/
def c9order : Order := ⟨"abc123", "confirmed", 10, ⟨none, none, none, none, none, none, 0⟩⟩

/-- Witness for C9: with a one-order store, a never-stored id yields a
200 envelope with an absent order, and the stored id yields the
stored order. -/
theorem c9_getOrder_absent_or_found_witness :
    (lambdaHandler ⟨"GET", "/order/" ++ "missing", none⟩ "uuid-1" [c9order] false =
      .ok (⟨200, .orderDetails "Retrieved Order Details Successfully" none⟩, [c9order]))
    ∧ (c9order.orderId = "abc123" ∧
      lambdaHandler ⟨"GET", "/order/" ++ "abc123", none⟩ "uuid-1" [c9order] false =
        .ok (⟨200, .orderDetails "Retrieved Order Details Successfully" (some c9order)⟩,
          [c9order])) :=
  ⟨(c9_getOrder_absent_or_found [c9order] "missing" "uuid-1" false (by decide)).1
      (by decide),
    (c9_getOrder_absent_or_found [c9order] "abc123" "uuid-1" false (by decide)).2 c9order
      (by decide)⟩

/-- A token of length exactly 56 used by the C7 witness. -/
def c7token : String := "pizza_payment_token_abcdefghijklmnopqrstuvwxyz0123456789"

/-- Witness for C7: a 5-character token is rejected and a 56-character
token is accepted. -/
theorem c7_token_length_iff_witness :
    tokenCheck "short" = false ∧ tokenCheck c7token = true :=
  ⟨(c7_token_length_iff "short").2 (by decide),
    (c7_token_length_iff c7token).1.mpr (by decide)⟩
